import Mathlib

/-!
Shallow embedding of the puchikarui mini SQLite ORM engine
(src/puchikarui/puchikarui.py) and verification of its specification.

Python values are modelled by an inductive `Value` with Python truthiness;
Python attribute access is an association-list lookup that fails with
`attributeError` on a missing attribute; fallible Python code returns
`Except PyError`.  The sqlite engine is external: it is modelled as an
abstract `Engine` mapping a statement and its parameters to a cursor.
-/

namespace Puchikarui

/-- A small universe of Python scalar values appearing in rows and objects. -/
inductive Value
  | vNone
  | vBool (b : Bool)
  | vInt (n : Int)
  | vStr (s : String)
  deriving DecidableEq, Repr

/-- Python truthiness of a `Value` (None, False, 0 and the empty string are falsy). -/
def Value.truthy : Value → Bool
  | .vNone => false
  | .vBool b => b
  | .vInt n => n != 0
  | .vStr s => s != ""

/-- The Python exception kinds raised by the code paths we model. -/
inductive PyError
  | attributeError
  | typeError
  | valueError
  deriving DecidableEq, Repr

/-- A Python object: its instance dictionary of attributes. -/
structure PyObject where
  attrs : List (String × Value)
  deriving DecidableEq, Repr

/-- Python getattr with no default: a missing attribute raises AttributeError. -/
def getattr (o : PyObject) (n : String) : Except PyError Value :=
  match o.attrs.lookup n with
  | some v => .ok v
  | none => .error .attributeError

/-- Evaluation of the tuple comprehension reading one attribute per column
name (used by insert_object, update_object and delete_object); the first
missing attribute raises. -/
def getattr_values (o : PyObject) : List String → Except PyError (List Value)
  | [] => .ok []
  | c :: rest =>
    match getattr o c with
    | .error e => .error e
    | .ok v =>
      match getattr_values o rest with
      | .error e => .error e
      | .ok vs => .ok (v :: vs)

/-- Table metadata: name, ordered column list, declared id columns, and
whether a prototype record type (`_proto`) was supplied. -/
structure Table where
  name : String
  columns : List String
  id_cols : List String
  has_proto : Bool
  deriving DecidableEq, Repr

/-- One raw result row from the engine: an ordered tuple of cell values. -/
structure Row where
  cells : List Value
  deriving DecidableEq, Repr

/-- An sqlite3 cursor as returned by execute: it carries the remaining rows. -/
structure Cursor where
  rows : List Row
  deriving DecidableEq, Repr

/-- Python truthiness of an sqlite3.Cursor: the class defines neither
a bool nor a len method, so a cursor object is always truthy. -/
def Cursor.pyTruthy (_ : Cursor) : Bool := true

/-- A mapped result record: either a positional namedtuple row or a domain
object materialised from the prototype. -/
inductive Rec
  | row (cells : List Value)
  | obj (attrs : List (String × Value))
  deriving DecidableEq, Repr

/-- Table.to_obj: build a domain object from zip(columns, row_tuple),
defaulting columns to the declared column list. -/
def Table.to_obj (t : Table) (columns : Option (List String)) (r : Row) : Rec :=
  let cols := match columns with
    | none => t.columns
    | some [] => t.columns
    | some cs => cs
  .obj (cols.zip r.cells)

/-- Table.to_row: positional record construction; the namedtuple template
only names the fields, the cell values stay positional. -/
def Table.to_row (_ : Table) (r : Row) : Rec :=
  .row r.cells

/-- Table.to_table: raises ValueError on a falsy argument, otherwise maps
every row through to_obj (when a prototype is declared) or to_row.  The
caller select_record always passes a cursor, which is always truthy. -/
def Table.to_table (t : Table) (c : Cursor) (columns : Option (List String)) :
    Except PyError (List Rec) :=
  if c.pyTruthy = false then .error .valueError
  else if t.has_proto then .ok (c.rows.map (t.to_obj columns))
  else .ok (c.rows.map t.to_row)

namespace QueryBuilder

/-- QueryBuilder.build_select: columns default to the declared list when the
argument is None or empty; WHERE, ORDER BY and LIMIT render only when
the corresponding argument is truthy. -/
def build_select (t : Table) (whr orderby : Option String) (limit : Option Int)
    (columns : Option (List String)) : String :=
  let cols := match columns with
    | none => t.columns
    | some [] => t.columns
    | some cs => cs
  let base := "SELECT " ++ String.intercalate "," cols ++ " FROM " ++ t.name
  let withWhere := match whr with
    | some w => if w = "" then base else base ++ " WHERE " ++ w
    | none => base
  let withOrder := match orderby with
    | some ob => if ob = "" then withWhere else withWhere ++ " ORDER BY " ++ ob
    | none => withWhere
  match limit with
  | some n => if n = 0 then withOrder else withOrder ++ " LIMIT " ++ toString n
  | none => withOrder

/-- The Python slice columns[-k:]: for k = 0 this is columns[0:], the whole
list; for k greater than the length it is also the whole list. -/
def pySliceLast (l : List String) (k : Nat) : List String :=
  if k = 0 then l else l.drop (l.length - k)

/-- The column-name list used by build_insert: columns default to the
declared list; when fewer values than columns are supplied the list is the
Python slice columns[-len(values):]. -/
def insert_columns (t : Table) (k : Nat) (columns : Option (List String)) :
    List String :=
  let cols := match columns with
    | none => t.columns
    | some [] => t.columns
    | some cs => cs
  if k < cols.length then pySliceLast cols k else cols

/-- QueryBuilder.build_insert: the generated INSERT statement, with one
positional placeholder per supplied value (the source string ends in a
space). -/
def build_insert (t : Table) (values : List Value)
    (columns : Option (List String)) : String :=
  "INSERT INTO " ++ t.name ++ " ("
    ++ String.intercalate "," (insert_columns t values.length columns)
    ++ ") VALUES ("
    ++ String.intercalate "," (List.replicate values.length "?")
    ++ ") "

/-- QueryBuilder.build_update: columns default to the declared list only
when the argument is None (not when empty); renders SET col=? pairs and an
optional WHERE clause after them. -/
def build_update (t : Table) (whr : String) (columns : Option (List String)) :
    String :=
  let cols := match columns with
    | none => t.columns
    | some cs => cs
  let set_fields := cols.map (fun c => c ++ "=?")
  if whr = "" then
    "UPDATE " ++ t.name ++ " SET " ++ String.intercalate ", " set_fields
  else
    "UPDATE " ++ t.name ++ " SET " ++ String.intercalate ", " set_fields
      ++ " WHERE " ++ whr

/-- QueryBuilder.build_delete: with a truthy where fragment it renders
DELETE FROM table WHERE fragment; otherwise the source reads self.name on
the QueryBuilder instance, whose only attribute is schema, so the access
raises AttributeError before any statement is rendered. -/
def build_delete (t : Table) (whr : Option String) : Except PyError String :=
  match whr with
  | some w =>
    if w = "" then .error .attributeError
    else .ok ("DELETE FROM " ++ t.name ++ " WHERE " ++ w)
  | none => .error .attributeError

end QueryBuilder

/-- The external sqlite engine at the interface consumed by execute: a
statement with optional parameters either raises or yields a cursor. -/
structure Engine where
  runQuery : String → Option (List Value) → Except PyError Cursor

/-- The conjunctive identity WHERE fragment built over the declared id
columns (the pattern shared by select_object_by_id, update_object and
delete_object). -/
def idWhere (t : Table) : String :=
  String.intercalate " AND " (t.id_cols.map (fun c => c ++ "=?"))

namespace ExecutionContext

/-- ExecutionContext.execute: runs one parameterized statement on the
engine; an engine error is logged and re-raised unchanged. -/
def execute (eng : Engine) (query : String) (params : Option (List Value)) :
    Except PyError Cursor :=
  eng.runQuery query params

/-- ExecutionContext.select_record: builds the SELECT via the query
builder, executes it, and maps the cursor through Table.to_table. -/
def select_record (eng : Engine) (t : Table) (whr : Option String)
    (values : Option (List Value)) (orderby : Option String)
    (limit : Option Int) (columns : Option (List String)) :
    Except PyError (List Rec) :=
  let query := QueryBuilder.build_select t whr orderby limit columns
  match execute eng query values with
  | .error e => .error e
  | .ok c => t.to_table c columns

/-- ExecutionContext.update_record: the (query, params) pair handed to
execute — the update statement from the query builder, and new_values with
where_values appended when where_values is truthy (a non-empty list). -/
def update_record (t : Table) (new_values : List Value) (whr : String)
    (where_values : Option (List Value)) (columns : Option (List String)) :
    String × List Value :=
  let query := QueryBuilder.build_update t whr columns
  let params := match where_values with
    | none => new_values
    | some wv => if wv.isEmpty then new_values else new_values ++ wv
  (query, params)

/-- ExecutionContext.delete_record: builds the DELETE (which may raise, see
build_delete) and hands it with the values to execute. -/
def delete_record (t : Table) (whr : Option String)
    (values : Option (List Value)) :
    Except PyError (String × Option (List Value)) :=
  match QueryBuilder.build_delete t whr with
  | .error e => .error e
  | .ok q => .ok (q, values)

/-- ExecutionContext.select_object_by_id: selects with the identity WHERE
fragment and the given id values; the first result, or None when the
result list is falsy (empty). -/
def select_object_by_id (eng : Engine) (t : Table) (ids : List Value)
    (columns : Option (List String)) : Except PyError (Option Rec) :=
  match select_record eng t (some (idWhere t)) (some ids) none none columns with
  | .error e => .error e
  | .ok results =>
    match results with
    | [] => .ok none
    | r :: _ => .ok (some r)

/-- ExecutionContext.delete_object: reads the id-column values off the
object (raising on a missing attribute) and deletes with the identity
WHERE fragment. -/
def delete_object (t : Table) (obj : PyObject) :
    Except PyError (String × Option (List Value)) :=
  match getattr_values obj t.id_cols with
  | .error e => .error e
  | .ok where_values => delete_record t (some (idWhere t)) (some where_values)

end ExecutionContext

namespace TableContext

/-- TableContext.select_single: the first record of select_record when the
result list is truthy and non-empty, else None. -/
def select_single (eng : Engine) (t : Table) (whr : Option String)
    (values : Option (List Value)) (columns : Option (List String)) :
    Except PyError (Option Rec) :=
  match ExecutionContext.select_record eng t whr values none none columns with
  | .error e => .error e
  | .ok result =>
    match result with
    | [] => .ok none
    | r :: _ => .ok (some r)

/-- The loop of TableContext.save: existed starts as True and each step
computes existed and getattr(obj, i), with Python short-circuiting — once
existed is falsy the remaining attributes are not read. -/
def save_existed (obj : PyObject) : Value → List String → Except PyError Value
  | acc, [] => .ok acc
  | acc, i :: rest =>
    if acc.truthy = true then
      match getattr obj i with
      | .error e => .error e
      | .ok v => save_existed obj v rest
    else
      save_existed obj acc rest

/-- The branch taken by save: update_object or insert_object. -/
inductive SaveAction
  | update
  | insert
  deriving DecidableEq, Repr

/-- TableContext.save: folds truthiness of the id-column attributes and
dispatches to update (all truthy) or insert (otherwise). -/
def save (t : Table) (obj : PyObject) : Except PyError SaveAction :=
  match save_existed obj (.vBool true) t.id_cols with
  | .error e => .error e
  | .ok existed => if existed.truthy = true then .ok .update else .ok .insert

/-- Python call binding for TableContext.delete_obj(self, obj): exactly one
positional argument is accepted; any other arity raises TypeError before
the body runs. -/
def delete_obj_args (t : Table) (args : List PyObject) :
    Except PyError (String × Option (List Value)) :=
  match args with
  | [obj] => ExecutionContext.delete_object t obj
  | _ => .error .typeError

end TableContext

/-- Table.delete_obj: with a caller-supplied execution context it calls
ctx.delete_obj(obj); without one it opens a throwaway context and calls
ctx.delete_obj() with no argument (source line 156). -/
def Table.delete_obj (t : Table) (obj : PyObject) (has_exe : Bool) :
    Except PyError (String × Option (List Value)) :=
  if has_exe then TableContext.delete_obj_args t [obj]
  else TableContext.delete_obj_args t []

/-- The observable state of the backing store file at the moment of one
open() call: whether os.path.isfile holds and the file size. -/
structure Store where
  isfile : Bool
  size : Nat
  deriving DecidableEq, Repr

namespace DataSource

/-- The setup configuration of a DataSource: the text read from setup_file
at construction, and the inline setup_script. -/
structure Config where
  setup_file : Option String
  setup_script : Option String
  deriving DecidableEq, Repr

/-- The condition tested by every open() call: the store is absent or has
size zero. -/
def setupNeeded (st : Store) : Bool :=
  !st.isfile || st.size == 0

/-- The scripts DataSource.open executes on one call, in order: the
setup_file text then the setup_script text, each when present, and only
when the store is absent or empty at this open. -/
def open_setup_scripts (ds : Config) (st : Store) : List String :=
  if setupNeeded st = true then ds.setup_file.toList ++ ds.setup_script.toList
  else []

/-- The setup scripts run by a sequence of open() calls, given the store
state observed at each call. -/
def openTrace (ds : Config) (sts : List Store) : List (List String) :=
  sts.map (open_setup_scripts ds)

end DataSource

/-- The events observable during ExecutionContext shutdown. -/
inductive CloseEvent
  | commitCall
  | connClose
  | logException
  deriving DecidableEq, Repr

/-- The connection-lifecycle fields of an ExecutionContext: whether
self.conn is still a live connection, and the auto_commit flag. -/
structure ConnState where
  hasConn : Bool
  auto_commit : Bool
  deriving DecidableEq, Repr

/-- Which of the underlying sqlite calls raise in a given run. -/
structure SqlOracle where
  commitFails : Bool
  closeFails : Bool
  deriving DecidableEq, Repr

namespace ExecutionContext

/-- ExecutionContext.commit: when the connection is truthy, conn.commit()
is attempted; an exception from it is caught and logged, never propagated.
Returns the emitted events. -/
def commit (s : ConnState) (o : SqlOracle) : List CloseEvent :=
  if s.hasConn = true then
    if o.commitFails = true then [.commitCall, .logException]
    else [.commitCall]
  else []

/-- The try-body of ExecutionContext.close: when self.conn is not None, it
commits (iff auto_commit) and then calls conn.close().  Returns the events
and whether the body raised (only conn.close() can raise here, since
commit swallows its own failures). -/
def close_body (s : ConnState) (o : SqlOracle) : List CloseEvent × Bool :=
  if s.hasConn = true then
    let ce := if s.auto_commit = true then commit s o else []
    (ce ++ [.connClose], o.closeFails)
  else ([], false)

/-- ExecutionContext.close: the try-body, with any exception caught and
logged, and a finally block that sets self.conn to None.  Returns the new
state, the events, and whether close itself raised. -/
def close (s : ConnState) (o : SqlOracle) :
    ConnState × List CloseEvent × Bool :=
  let body := close_body s o
  let handled :=
    if body.2 = true then (body.1 ++ [.logException], false)
    else body
  ({ s with hasConn := false }, handled.1, handled.2)

/-- ExecutionContext exit: close() wrapped in a try/except that logs; the
method returns None, so Python propagates the pending exception of the
body, if any, unchanged.  Returns the new state, the events, and the
exception that propagates out of the scope. -/
def exitScope (s : ConnState) (o : SqlOracle) (pending : Option PyError) :
    ConnState × List CloseEvent × Option PyError :=
  let r := close s o
  let events :=
    if r.2.2 = true then r.2.1 ++ [.logException]
    else r.2.1
  (r.1, events, pending)

end ExecutionContext

/-- The schema registry seen by a context: the _tables mapping of
registered names (and aliases) to table metadata. -/
structure SchemaReg where
  tables : List (String × Table)
  deriving DecidableEq, Repr

/-- A TableContext reference, tagged with an allocation id so that two
distinct constructions are distinguishable objects. -/
structure TCRef where
  table : Table
  allocId : Nat
  deriving DecidableEq, Repr

/-- The attribute-lookup state of an ExecutionContext: the bound schema,
the instance dictionary entries created by setattr, and an allocation
counter for fresh TableContext objects. -/
structure AttrState where
  schema : Option SchemaReg
  attrs : List (String × TCRef)
  nextId : Nat
  deriving DecidableEq, Repr

namespace ExecutionContext

/-- Python attribute access of a table name on an ExecutionContext: an
instance-dictionary hit returns the stored value without invoking the
getattr hook; on a miss the hook raises AttributeError when no schema is
bound or the name is not registered, and otherwise builds a TableContext,
stores it with setattr and returns the stored attribute. -/
def getattr_table (ec : AttrState) (name : String) :
    Except PyError (TCRef × AttrState) :=
  match ec.attrs.lookup name with
  | some ctx => .ok (ctx, ec)
  | none =>
    match ec.schema with
    | none => .error .attributeError
    | some sch =>
      match sch.tables.lookup name with
      | none => .error .attributeError
      | some tbl =>
        let ctx : TCRef := ⟨tbl, ec.nextId⟩
        let ec2 : AttrState :=
          { ec with attrs := (name, ctx) :: ec.attrs, nextId := ec.nextId + 1 }
        .ok (ctx, ec2)

end ExecutionContext

/-- A concrete table fixture mirroring the person table of the test suite. -/
def personTbl : Table := ⟨"person", ["ID", "name", "age"], ["ID"], false⟩

/-- A table fixture whose declared column list is empty. -/
def emptyColsTbl : Table := ⟨"t", [], [], false⟩

/-- A DataSource fixture with an inline setup script and no setup file. -/
def dsCfg : DataSource.Config := ⟨none, some "SETUP"⟩

/-- C3 counterexample: with zero supplied values (K = 0 < N = 3) the Python
slice columns[-0:] is the whole column list, so the generated INSERT
targets all three declared columns, not the last zero of them. -/
theorem build_insert_zero_values_cex :
    QueryBuilder.build_insert personTbl [] none
        = "INSERT INTO person (ID,name,age) VALUES () "
      ∧ QueryBuilder.insert_columns personTbl 0 none = ["ID", "name", "age"] := by
  constructor
  · rfl
  · rfl

/-- C3 (amended): for a table with N declared columns and an insert given
K values with 1 ≤ K < N and the column list defaulted, build_insert
targets exactly the last K columns in declared order and contains exactly
K positional placeholders. -/
theorem build_insert_right_aligned (t : Table) (values : List Value)
    (h1 : 1 ≤ values.length) (h2 : values.length < t.columns.length) :
    QueryBuilder.insert_columns t values.length none
        = t.columns.drop (t.columns.length - values.length)
      ∧ (QueryBuilder.insert_columns t values.length none).length
        = values.length
      ∧ QueryBuilder.build_insert t values none
        = "INSERT INTO " ++ t.name ++ " ("
          ++ String.intercalate ","
              (t.columns.drop (t.columns.length - values.length))
          ++ ") VALUES ("
          ++ String.intercalate "," (List.replicate values.length "?")
          ++ ") " := by
  have hc : QueryBuilder.insert_columns t values.length none
      = t.columns.drop (t.columns.length - values.length) := by
    unfold QueryBuilder.insert_columns QueryBuilder.pySliceLast
    rw [if_pos h2, if_neg (by omega)]
  refine ⟨hc, ?_, ?_⟩
  · rw [hc, List.length_drop]
    omega
  · unfold QueryBuilder.build_insert
    rw [hc]

/-- C3 witness: a two-value insert into the three-column person table. -/
theorem build_insert_right_aligned_witness :
    QueryBuilder.insert_columns personTbl
        ([Value.vStr "Chun", Value.vInt 78]).length none
      = personTbl.columns.drop
          (personTbl.columns.length - ([Value.vStr "Chun", Value.vInt 78]).length)
    ∧ (QueryBuilder.insert_columns personTbl
        ([Value.vStr "Chun", Value.vInt 78]).length none).length
      = ([Value.vStr "Chun", Value.vInt 78]).length
    ∧ QueryBuilder.build_insert personTbl [Value.vStr "Chun", Value.vInt 78] none
      = "INSERT INTO " ++ personTbl.name ++ " ("
        ++ String.intercalate ","
            (personTbl.columns.drop
              (personTbl.columns.length - ([Value.vStr "Chun", Value.vInt 78]).length))
        ++ ") VALUES ("
        ++ String.intercalate ","
            (List.replicate ([Value.vStr "Chun", Value.vInt 78]).length "?")
        ++ ") " :=
  build_insert_right_aligned personTbl [Value.vStr "Chun", Value.vInt 78]
    (by decide) (by decide)

/-- C4 counterexample: the store has content at the first open (no setup),
is emptied externally, and the second open re-runs the setup script —
the content check is per-open, not once per physical store. -/
theorem open_rerun_setup_cex :
    DataSource.openTrace dsCfg [⟨true, 5⟩, ⟨true, 0⟩] = [[], ["SETUP"]] := by
  rfl

/-- C4 (amended): open() runs setup exactly when the store is absent or
empty at that open; as long as every open observes a store with content,
no open in the sequence runs any setup script. -/
theorem open_setup_only_when_store_empty (ds : DataSource.Config)
    (sts : List Store)
    (h : ∀ st ∈ sts, st.isfile = true ∧ st.size ≠ 0) :
    DataSource.openTrace ds sts = List.replicate sts.length []
      ∧ ∀ st : Store, DataSource.setupNeeded st = true →
          DataSource.open_setup_scripts ds st
            = ds.setup_file.toList ++ ds.setup_script.toList := by
  constructor
  · induction sts with
    | nil => rfl
    | cons a l ih =>
      obtain ⟨h1, h2⟩ := h a (by simp)
      have hrest := ih (fun st hst => h st (by simp [hst]))
      simp only [DataSource.openTrace, List.map, List.replicate] at hrest ⊢
      rw [hrest]
      simp [DataSource.open_setup_scripts, DataSource.setupNeeded, h1, h2]
  · intro st hst
    simp [DataSource.open_setup_scripts, hst]

/-- C4 witness: two opens that both observe a non-empty store. -/
theorem open_setup_only_when_store_empty_witness :
    DataSource.openTrace dsCfg [⟨true, 5⟩, ⟨true, 3⟩]
        = List.replicate ([(⟨true, 5⟩ : Store), ⟨true, 3⟩]).length []
      ∧ ∀ st : Store, DataSource.setupNeeded st = true →
          DataSource.open_setup_scripts dsCfg st
            = dsCfg.setup_file.toList ++ dsCfg.setup_script.toList :=
  open_setup_only_when_store_empty dsCfg [⟨true, 5⟩, ⟨true, 3⟩] (by decide)

/-- C7: build_delete with an absent or empty where fragment does not render
an unconditional DELETE; it raises AttributeError, because the source
reads self.name on the QueryBuilder instance (which only has a schema
attribute) instead of table.name.  With a truthy where fragment the
statement renders as documented. -/
theorem build_delete_missing_attr :
    QueryBuilder.build_delete personTbl none = .error .attributeError
      ∧ QueryBuilder.build_delete personTbl (some "") = .error .attributeError
      ∧ QueryBuilder.build_delete personTbl (some "age > ?")
        = .ok "DELETE FROM person WHERE age > ?" := by
  refine ⟨rfl, rfl, rfl⟩

/-- C8 counterexample: a table declaring no columns, with the column list
defaulted, renders SELECT and INSERT statements with an empty column list;
no error of any kind is raised. -/
theorem builder_empty_columns_cex :
    QueryBuilder.build_select emptyColsTbl none none none none
        = "SELECT  FROM t"
      ∧ QueryBuilder.build_insert emptyColsTbl [] none
        = "INSERT INTO t () VALUES () " := by
  constructor
  · rfl
  · rfl

/-- C8 (amended): when the column list is empty after defaulting, the
query builders silently render SQL with an empty column list rather than
raising an InvalidSchema error (no such error exists in the code). -/
theorem builder_empty_columns_renders (t : Table) (h : t.columns = []) :
    QueryBuilder.build_select t none none none none
        = "SELECT  FROM " ++ t.name
      ∧ QueryBuilder.build_insert t [] none
        = "INSERT INTO " ++ t.name ++ " () VALUES () " := by
  constructor
  · unfold QueryBuilder.build_select
    rw [h]
    rfl
  · unfold QueryBuilder.build_insert QueryBuilder.insert_columns
      QueryBuilder.pySliceLast
    rw [h]
    simp only [String.append_assoc]
    rfl

/-- C8 witness: the empty-column fixture. -/
theorem builder_empty_columns_renders_witness :
    QueryBuilder.build_select emptyColsTbl none none none none
        = "SELECT  FROM " ++ emptyColsTbl.name
      ∧ QueryBuilder.build_insert emptyColsTbl [] none
        = "INSERT INTO " ++ emptyColsTbl.name ++ " () VALUES () " :=
  builder_empty_columns_renders emptyColsTbl rfl

/-- C9: with a non-empty where_values list the executed parameter list is
exactly new_values followed by where_values, and the executed statement
puts every SET-clause placeholder before the WHERE clause. -/
theorem update_record_param_order (t : Table) (nv wv : List Value)
    (w : String) (copt : Option (List String))
    (hwv : wv ≠ []) (hw : w ≠ "") :
    ExecutionContext.update_record t nv w (some wv) copt
      = ("UPDATE " ++ t.name ++ " SET "
          ++ String.intercalate ", "
              ((match copt with
                | none => t.columns
                | some cs => cs).map (fun c => c ++ "=?"))
          ++ " WHERE " ++ w,
         nv ++ wv) := by
  cases wv with
  | nil => exact absurd rfl hwv
  | cons a l =>
    simp only [ExecutionContext.update_record, QueryBuilder.build_update,
      List.isEmpty, if_neg hw]
    rfl

/-- C9 witness: scenario 3 of the spec, updating age by name. -/
theorem update_record_param_order_witness :
    ExecutionContext.update_record personTbl [Value.vInt 10] "name=?"
        (some [Value.vStr "Totoro"]) (some ["age"])
      = ("UPDATE " ++ personTbl.name ++ " SET "
          ++ String.intercalate ", "
              ((match (some ["age"] : Option (List String)) with
                | none => personTbl.columns
                | some cs => cs).map (fun c => c ++ "=?"))
          ++ " WHERE " ++ "name=?",
         [Value.vInt 10] ++ [Value.vStr "Totoro"]) :=
  update_record_param_order personTbl [Value.vInt 10] [Value.vStr "Totoro"]
    "name=?" (some ["age"]) (by decide) (by decide)

/-- C1: on scope exit with a live connection, the pending exception of the
body (if any) propagates unchanged, the connection field is cleared, the
commit call happens iff auto_commit, the close call happens
unconditionally, any commit or close failure is logged, and close itself
never raises. -/
theorem exec_context_scope_release (s : ConnState) (o : SqlOracle)
    (pending : Option PyError) (h : s.hasConn = true) :
    (ExecutionContext.exitScope s o pending).2.2 = pending
      ∧ (ExecutionContext.exitScope s o pending).1.hasConn = false
      ∧ (CloseEvent.commitCall ∈ (ExecutionContext.exitScope s o pending).2.1
          ↔ s.auto_commit = true)
      ∧ CloseEvent.connClose ∈ (ExecutionContext.exitScope s o pending).2.1
      ∧ ((s.auto_commit = true ∧ o.commitFails = true) ∨ o.closeFails = true →
          CloseEvent.logException ∈ (ExecutionContext.exitScope s o pending).2.1)
      ∧ (ExecutionContext.close s o).2.2 = false := by
  obtain ⟨hc, ac⟩ := s
  replace h : hc = true := h
  subst h
  obtain ⟨cf, clf⟩ := o
  cases ac <;> cases cf <;> cases clf <;>
    simp [ExecutionContext.exitScope, ExecutionContext.close,
      ExecutionContext.close_body, ExecutionContext.commit]

/-- C1 witness: a live auto-commit connection with a pending ValueError
and no engine failures. -/
theorem exec_context_scope_release_witness :
    (ExecutionContext.exitScope ⟨true, true⟩ ⟨false, false⟩
        (some PyError.valueError)).2.2 = some PyError.valueError
      ∧ (ExecutionContext.exitScope ⟨true, true⟩ ⟨false, false⟩
          (some PyError.valueError)).1.hasConn = false
      ∧ (CloseEvent.commitCall ∈ (ExecutionContext.exitScope ⟨true, true⟩
            ⟨false, false⟩ (some PyError.valueError)).2.1
          ↔ (⟨true, true⟩ : ConnState).auto_commit = true)
      ∧ CloseEvent.connClose ∈ (ExecutionContext.exitScope ⟨true, true⟩
          ⟨false, false⟩ (some PyError.valueError)).2.1
      ∧ (((⟨true, true⟩ : ConnState).auto_commit = true
            ∧ (⟨false, false⟩ : SqlOracle).commitFails = true)
          ∨ (⟨false, false⟩ : SqlOracle).closeFails = true →
          CloseEvent.logException ∈ (ExecutionContext.exitScope ⟨true, true⟩
            ⟨false, false⟩ (some PyError.valueError)).2.1)
      ∧ (ExecutionContext.close ⟨true, true⟩ ⟨false, false⟩).2.2 = false :=
  exec_context_scope_release ⟨true, true⟩ ⟨false, false⟩
    (some PyError.valueError) rfl

/-- Helper: once the accumulator of the save loop is falsy, the loop
short-circuits and no further attribute is read. -/
theorem save_existed_falsy (obj : PyObject) (acc : Value)
    (cols : List String) (h : acc.truthy = false) :
    TableContext.save_existed obj acc cols = .ok acc := by
  induction cols with
  | nil => rfl
  | cons c rest ih =>
    simp only [TableContext.save_existed]
    rw [if_neg (by simp [h])]
    exact ih

/-- Helper: when every listed attribute is present and truthy, the save
loop ends with a truthy accumulator. -/
theorem save_existed_truthy (obj : PyObject) (cols : List String)
    (hpres : ∀ c ∈ cols, (obj.attrs.lookup c).isSome = true)
    (htr : ∀ c ∈ cols, Option.all Value.truthy (obj.attrs.lookup c) = true) :
    ∀ acc : Value, acc.truthy = true →
      ∃ v, TableContext.save_existed obj acc cols = .ok v
        ∧ v.truthy = true := by
  induction cols with
  | nil => exact fun acc h => ⟨acc, rfl, h⟩
  | cons c rest ih =>
    intro acc h
    obtain ⟨v, hv⟩ := Option.isSome_iff_exists.mp (hpres c (by simp))
    have hvt : v.truthy = true := by
      have hc := htr c (by simp)
      rw [hv] at hc
      simpa [Option.all] using hc
    obtain ⟨w, hw1, hw2⟩ :=
      ih (fun x hx => hpres x (by simp [hx]))
        (fun x hx => htr x (by simp [hx])) v hvt
    refine ⟨w, ?_, hw2⟩
    simp only [TableContext.save_existed]
    rw [if_pos h]
    unfold getattr
    rw [hv]
    exact hw1

/-- C2 counterexample: the person table declares id column ID; on an
object whose ID attribute is absent (every id-column attribute is thus
falsy-or-absent), save raises AttributeError instead of inserting. -/
theorem save_absent_id_cex :
    TableContext.save personTbl ⟨[("name", .vStr "Totoro")]⟩
        = .error .attributeError
      ∧ TableContext.save personTbl ⟨[("name", .vStr "Totoro")]⟩
        ≠ .ok .insert := by
  constructor
  · rfl
  · intro hcontra
    exact Except.noConfusion
      (show (Except.error PyError.attributeError :
            Except PyError TableContext.SaveAction)
          = Except.ok TableContext.SaveAction.insert from hcontra)

/-- C2 (amended): for a table with declared id columns and an object on
which every id-column attribute is present, save updates when all of them
are truthy and inserts when all of them are falsy. -/
theorem save_state_machine (t : Table) (obj : PyObject)
    (hne : t.id_cols ≠ [])
    (hpres : ∀ c ∈ t.id_cols, (obj.attrs.lookup c).isSome = true) :
    ((∀ c ∈ t.id_cols, Option.all Value.truthy (obj.attrs.lookup c) = true) →
        TableContext.save t obj = .ok .update)
      ∧ ((∀ c ∈ t.id_cols,
            Option.all (fun v => !v.truthy) (obj.attrs.lookup c) = true) →
          TableContext.save t obj = .ok .insert) := by
  constructor
  · intro htr
    obtain ⟨v, hv1, hv2⟩ :=
      save_existed_truthy obj t.id_cols hpres htr (.vBool true) rfl
    unfold TableContext.save
    rw [hv1]
    simp [hv2]
  · intro hf
    cases hcols : t.id_cols with
    | nil => exact absurd hcols hne
    | cons c rest =>
      have hp := hpres c (by rw [hcols]; simp)
      obtain ⟨v, hv⟩ := Option.isSome_iff_exists.mp hp
      have hvf : v.truthy = false := by
        have hc := hf c (by rw [hcols]; simp)
        rw [hv] at hc
        simpa [Option.all] using hc
      have hrun : TableContext.save_existed obj (Value.vBool true) (c :: rest)
          = Except.ok v := by
        show (match getattr obj c with
          | Except.error e => Except.error e
          | Except.ok v2 => TableContext.save_existed obj v2 rest)
          = Except.ok v
        unfold getattr
        rw [hv]
        show TableContext.save_existed obj v rest = Except.ok v
        exact save_existed_falsy obj v rest hvf
      unfold TableContext.save
      rw [hcols, hrun]
      simp [hvf]

/-- C2 witness: an object with a truthy ID is updated. -/
theorem save_state_machine_witness :
    TableContext.save personTbl ⟨[("ID", .vInt 7), ("name", .vStr "Chun")]⟩
      = .ok .update :=
  (save_state_machine personTbl ⟨[("ID", .vInt 7), ("name", .vStr "Chun")]⟩
    (by decide) (by decide)).1 (by decide)

/-- C5: when the engine finds zero matching rows, select_record returns
the empty list, select_single returns None, and select_object_by_id
returns None; none of them raises. -/
theorem select_empty_vs_absent (eng : Engine) (t : Table)
    (whr : Option String) (values : Option (List Value))
    (orderby : Option String) (limit : Option Int) (ids : List Value)
    (columns : Option (List String))
    (heng : ∀ q v, eng.runQuery q v = .ok ⟨[]⟩) :
    ExecutionContext.select_record eng t whr values orderby limit columns
        = .ok []
      ∧ TableContext.select_single eng t whr values columns = .ok none
      ∧ ExecutionContext.select_object_by_id eng t ids columns = .ok none := by
  have hsel : ∀ (w ob : Option String) (v : Option (List Value))
      (lim : Option Int),
      ExecutionContext.select_record eng t w v ob lim columns = .ok [] := by
    intro w ob v lim
    simp only [ExecutionContext.select_record, ExecutionContext.execute]
    rw [heng]
    simp [Table.to_table, Cursor.pyTruthy]
  refine ⟨hsel _ _ _ _, ?_, ?_⟩
  · unfold TableContext.select_single
    rw [hsel]
  · unfold ExecutionContext.select_object_by_id
    rw [hsel]

/-- C5 witness: an engine holding no matching rows, queried on the person
table. -/
theorem select_empty_vs_absent_witness :
    ExecutionContext.select_record ⟨fun _ _ => .ok ⟨[]⟩⟩ personTbl
        (some "age > ?") (some [Value.vInt 70]) none none none = .ok []
      ∧ TableContext.select_single ⟨fun _ _ => .ok ⟨[]⟩⟩ personTbl
          (some "age > ?") (some [Value.vInt 70]) none = .ok none
      ∧ ExecutionContext.select_object_by_id ⟨fun _ _ => .ok ⟨[]⟩⟩ personTbl
          [Value.vInt 1] none = .ok none :=
  select_empty_vs_absent ⟨fun _ _ => .ok ⟨[]⟩⟩ personTbl (some "age > ?")
    (some [Value.vInt 70]) none none [Value.vInt 1] none (fun _ _ => rfl)

/-- C6: on a context with a bound schema and no cached entry for a name,
accessing an unregistered table name raises AttributeError (the
UnknownTable condition), while accessing a registered name builds a
TableContext, caches it in the instance dictionary, and every repeated
access returns that same cached object with the state unchanged. -/
theorem table_access_cache (ec : AttrState) (name : String)
    (sch : SchemaReg) (tbl : Table)
    (hs : ec.schema = some sch) (hmiss : ec.attrs.lookup name = none) :
    (sch.tables.lookup name = none →
        ExecutionContext.getattr_table ec name = .error .attributeError)
      ∧ (sch.tables.lookup name = some tbl →
          ExecutionContext.getattr_table ec name
              = .ok (⟨tbl, ec.nextId⟩,
                  ⟨ec.schema, (name, ⟨tbl, ec.nextId⟩) :: ec.attrs,
                    ec.nextId + 1⟩)
            ∧ ExecutionContext.getattr_table
                ⟨ec.schema, (name, ⟨tbl, ec.nextId⟩) :: ec.attrs,
                  ec.nextId + 1⟩ name
              = .ok (⟨tbl, ec.nextId⟩,
                  ⟨ec.schema, (name, ⟨tbl, ec.nextId⟩) :: ec.attrs,
                    ec.nextId + 1⟩)) := by
  constructor
  · intro hnone
    simp only [ExecutionContext.getattr_table, hmiss, hs, hnone]
  · intro htbl
    constructor
    · simp only [ExecutionContext.getattr_table, hmiss, hs, htbl]
    · simp [ExecutionContext.getattr_table, List.lookup]

/-- A schema registry fixture with the person table registered. -/
def schReg : SchemaReg := ⟨[("person", personTbl)]⟩

/-- C6 witness: on a fresh context bound to schReg, the name hobby is
unregistered and raises, while person yields a cached table context that
repeated access returns unchanged. -/
theorem table_access_cache_witness :
    ExecutionContext.getattr_table ⟨some schReg, [], 0⟩ "hobby"
        = .error .attributeError
      ∧ (ExecutionContext.getattr_table ⟨some schReg, [], 0⟩ "person"
            = .ok (⟨personTbl, 0⟩,
                ⟨some schReg, [("person", ⟨personTbl, 0⟩)], 1⟩)
          ∧ ExecutionContext.getattr_table
              ⟨some schReg, [("person", ⟨personTbl, 0⟩)], 1⟩ "person"
            = .ok (⟨personTbl, 0⟩,
                ⟨some schReg, [("person", ⟨personTbl, 0⟩)], 1⟩)) :=
  ⟨(table_access_cache ⟨some schReg, [], 0⟩ "hobby" schReg personTbl
      rfl rfl).1 rfl,
   (table_access_cache ⟨some schReg, [], 0⟩ "person" schReg personTbl
      rfl rfl).2 rfl⟩

/-- C10: Table.delete_obj without a caller-supplied execution context
invokes the table context delete_obj with no object argument, so it
raises TypeError and no delete statement is ever built or executed; with
an explicit context it executes the identity-based delete of obj. -/
theorem delete_obj_dispatch (t : Table) (obj : PyObject) (ids : List Value)
    (hids : getattr_values obj t.id_cols = .ok ids)
    (hw : idWhere t ≠ "") :
    Table.delete_obj t obj false = .error .typeError
      ∧ Table.delete_obj t obj true
        = .ok ("DELETE FROM " ++ t.name ++ " WHERE " ++ idWhere t,
            some ids) := by
  constructor
  · rfl
  · simp [Table.delete_obj, TableContext.delete_obj_args,
      ExecutionContext.delete_object, ExecutionContext.delete_record,
      QueryBuilder.build_delete, hids, hw]

/-- C10 witness: deleting an object with a truthy ID from the person
table. -/
theorem delete_obj_dispatch_witness :
    Table.delete_obj personTbl ⟨[("ID", .vInt 7)]⟩ false
        = .error .typeError
      ∧ Table.delete_obj personTbl ⟨[("ID", .vInt 7)]⟩ true
        = .ok ("DELETE FROM " ++ personTbl.name ++ " WHERE "
              ++ idWhere personTbl,
            some [Value.vInt 7]) :=
  delete_obj_dispatch personTbl ⟨[("ID", .vInt 7)]⟩ [Value.vInt 7]
    rfl (by decide)

end Puchikarui
